import Mathlib

/-!
Shallow embedding of the HelloWork job-applier pipeline: `utils.py`,
`notion_client.py` and `main.py`.  External effects (HTTP, the Notion
store, the OpenAI call, the filesystem) are modelled by explicit
environment records and state passing; Python exceptions are modelled
with `Except`.
-/

/-- Python truthiness of an optional string (`if s:`): `None` and `""` are falsy. -/
def pyTruthy : Option String → Bool
  | none => false
  | some s => s != ""

/-- Python `x or default` on an optional string, yielding a string. -/
def pyOr (x : Option String) (d : String) : String :=
  match x with
  | some s => if s = "" then d else s
  | none => d

/-- Python `x or None` on an optional string (normalises `""` to `None`). -/
def pyOrNone (x : Option String) : Option String :=
  if pyTruthy x then x else none

/-- Python f-string rendering of an optional string (`None` prints as `"None"`). -/
def pyStr : Option String → String
  | none => "None"
  | some s => s

/-- One scraped job offer, as the dict built by `parse_search_results` and
later augmented by `prepare_and_save_offer` (`cover_letter`, `cv_url`). -/
structure Offer where
  title : Option String := none
  company : Option String := none
  location : Option String := none
  date : Option String := none
  link : Option String := none
  source : Option String := none
  cover_letter : Option String := none
  cv_url : Option String := none
deriving Repr, DecidableEq

/-! ### utils.py -/

/-- Outcome of fetching and parsing robots.txt: the `can_fetch` verdict as a
function of user agent and path (the behaviour of `urllib.robotparser`). -/
structure RobotsRules where
  canFetch : String → String → Bool

/-- `utils.check_robots_allowed`: returns the `can_fetch` verdict, and `False`
when any exception is raised while retrieving or parsing robots.txt
(`except Exception: return False`).  The fetch outcome is the argument
`robotsFetch`: `.error` models an exception during `rp.read()`. -/
def check_robots_allowed (robotsFetch : Except String RobotsRules)
    (user_agent path : String) : Bool :=
  match robotsFetch with
  | .error _ => false
  | .ok rp => rp.canFetch user_agent path

/-- State of a JSON file on disk: absent, present but not parseable as JSON,
or holding a JSON array of records. -/
inductive FileState (α : Type) where
  | missing
  | corrupt
  | stored (items : List α)
deriving Repr, DecidableEq

/-- The read phase of `utils.append_json` (lines 37-43): a missing file or a
`json.load` failure yields the empty list. -/
def readExistingArray {α : Type} : FileState α → List α
  | .stored items => items
  | _ => []

/-- `utils.append_json`: read the existing array, push `item`, rewrite the file. -/
def append_json {α : Type} (item : α) (fs : FileState α) : FileState α :=
  .stored (readExistingArray fs ++ [item])

/-- `utils.save_json`: overwrite the file with `data`. -/
def save_json {α : Type} (data : List α) (_fs : FileState α) : FileState α :=
  .stored data

/-! ### notion_client.py -/

/-- Does the character list `needle` occur as a leading block of `hay`? -/
def charsStartWith : List Char → List Char → Bool
  | _, [] => true
  | [], _ :: _ => false
  | a :: as, b :: bs => a == b && charsStartWith as bs

/-- Does `needle` occur contiguously anywhere in `hay`? -/
def charsContain : List Char → List Char → Bool
  | [], needle => charsStartWith [] needle
  | a :: t, needle => charsStartWith (a :: t) needle || charsContain t needle

/-- Substring containment on strings (the Notion `title contains` filter). -/
def strContainsSub (hay needle : String) : Bool :=
  charsContain hay.data needle.data

/-- The property map sent to Notion, as built by `build_properties_from_offer`:
`Title`, `Company`, `Location`, `Source` always present; `Link` and `Date`
only when truthy.  A created page is represented by its property map. -/
structure NotionProps where
  Title : String
  Company : String
  Location : String
  Link : Option String
  Date : Option String
  Source : String
deriving Repr, DecidableEq

/-- A remote Notion page, identified with its property map. -/
abbrev Page := NotionProps

/-- Failure injection for the two Notion HTTP calls: `some cause` means the
corresponding `requests.post(...)`/`raise_for_status` raises. -/
structure NotionEnv where
  queryFailure : Option String := none
  createFailure : Option String := none
deriving Repr, DecidableEq

/-- Semantics of the filter built by `query_database_by_link_or_title`: a page
matches when the link filter applies and its `Link` url equals `link`, or the
title filter applies and its `Title` contains `title` (logical OR). -/
def pageMatchesFilter (link title : Option String) (p : Page) : Bool :=
  (pyTruthy link && (p.Link == link)) ||
  (pyTruthy title && strContainsSub p.Title (title.getD ""))

/-- `notion_client.query_database_by_link_or_title`: with no truthy filter it
returns `[]` before any HTTP call; otherwise the HTTP call may raise, else
the store's matching pages are returned. -/
def query_database_by_link_or_title (env : NotionEnv) (store : List Page)
    (link title : Option String) : Except String (List Page) :=
  if !(pyTruthy link || pyTruthy title) then .ok []
  else
    match env.queryFailure with
    | some e => .error e
    | none => .ok (store.filter (pageMatchesFilter link title))

/-- `notion_client.build_properties_from_offer`. -/
def build_properties_from_offer (offer : Offer) : NotionProps :=
  { Title := pyOr offer.title "Sans titre"
    Company := pyOr offer.company ""
    Location := pyOr offer.location ""
    Link := pyOrNone offer.link
    Date := pyOrNone offer.date
    Source := pyOr offer.source "scraper" }

/-- `notion_client.create_page`: the HTTP call may raise; on success the page
is added to the store and returned. -/
def create_page (env : NotionEnv) (store : List Page) (properties : NotionProps) :
    Except String (Page × List Page) :=
  match env.createFailure with
  | some e => .error e
  | none => .ok (properties, store ++ [properties])

/-- The dict returned by `upsert_offer_to_notion`. -/
structure UpsertResult where
  status : String
  notion_result : Page
deriving Repr, DecidableEq

/-- `notion_client.upsert_offer_to_notion`: query by link/title; if any page is
found return `exists` with `found[0]`; otherwise create.  No exception is
caught here: a failing query or create propagates to the caller. -/
def upsert_offer_to_notion (env : NotionEnv) (store : List Page) (offer : Offer) :
    Except String (UpsertResult × List Page) :=
  match query_database_by_link_or_title env store offer.link offer.title with
  | .error e => .error e
  | .ok found =>
    match found with
    | first :: _ => .ok ({ status := "exists", notion_result := first }, store)
    | [] =>
      match create_page env store (build_properties_from_offer offer) with
      | .error e => .error e
      | .ok (result, store') => .ok ({ status := "created", notion_result := result }, store')

/-! ### main.py -/

/-- Behaviour of the configured OpenAI call in `generate_cover_letter_basic`:
no key configured, a successful reply, or any provider failure (timeout,
malformed response, quota) which the function catches. -/
inductive LlmBehavior where
  | notConfigured
  | replies (content : String)
  | fails (message : String)
deriving Repr, DecidableEq

/-- A sub-element selected inside an offer container: its stripped text
(`get_text(strip=True)`) and, for anchor tags, the `href` attribute. -/
structure Tag where
  text : String
  href : Option String := none
deriving Repr, DecidableEq

/-- One offer container found in the markup, with the four independently
selected sub-elements of `parse_search_results` (a `none` means the
selector matched nothing). -/
structure Container where
  titleTag : Option Tag := none
  companyTag : Option Tag := none
  locationTag : Option Tag := none
  dateTag : Option Tag := none
deriving Repr, DecidableEq

/-- A fetched page of markup, abstracted to the containers matched by the
primary selector set and by the secondary (fallback) selector set. -/
structure Html where
  primarySelection : List Container := []
  secondarySelection : List Container := []
deriving Repr, DecidableEq

/-- Ambient configuration and external-world behaviour for `main.py`:
environment variables, the robots.txt fetch, the per-page search fetch,
the ATS credentials/auth/submit outcomes and the Notion failure switches. -/
structure Env where
  cvFrUrl : Option String := none
  cvEsUrl : Option String := none
  llm : LlmBehavior := .notConfigured
  robotsFetch : Except String RobotsRules := .error "unreachable"
  fetchPage : Nat → Option Html := fun _ => none
  hwCreds : Bool := false
  dryRun : Bool := true
  authToken : Option String := none
  atsSubmitOk : Bool := false
  notion : NotionEnv := {}
  urljoin : String → String → String := fun _ h => h
  userAgent : String := "Mozilla/5.0 (compatible; YacineBot/1.0; +https://example.com/bot)"

/-- The fallback template of `generate_cover_letter_basic` (lines 125-126):
an f-string over the offer's title, company and the locale's CV URL. -/
def fallbackCoverLetter (env : Env) (offer : Offer) (lang : String) : String :=
  "Bonjour,\n\nJe vous propose ma candidature pour le poste de " ++ pyStr offer.title ++
  " au sein de " ++ pyStr offer.company ++
  ". Vous trouverez mon CV en pièce jointe (" ++
  pyStr (if lang == "fr" then env.cvFrUrl else env.cvEsUrl) ++
  ").\n\nCordialement,\nYacine Bedhouche"

/-- `main.generate_cover_letter_basic`: with a configured key and a successful
call, the stripped reply; on any provider failure the exception is caught and
the fallback template is returned; without a key, the fallback template. -/
def generate_cover_letter_basic (env : Env) (offer : Offer) (lang : String) : String :=
  match env.llm with
  | .replies content => content.trim
  | .fails _ => fallbackCoverLetter env offer lang
  | .notConfigured => fallbackCoverLetter env offer lang

/-- The per-container body of the loop in `parse_search_results` (lines
88-100): resolve the sub-elements, build the item dict, and emit it only
when the resolved title is truthy. -/
def containerToItem (join : String → String → String) (base_url : String)
    (off : Container) : Option Offer :=
  let link : Option String :=
    match off.titleTag with
    | some tg =>
      match tg.href with
      | some h => some (join base_url h)
      | none => none
    | none => none
  let title := off.titleTag.map Tag.text
  let company := off.companyTag.map Tag.text
  let location := off.locationTag.map Tag.text
  let date := off.dateTag.map Tag.text
  if pyTruthy title then
    some { title := title, company := company, location := location, date := date,
           link := link, source := some "hellowork" }
  else none

/-- The selector cascade of `parse_search_results` (lines 84-86): the primary
selection, or the secondary one when the primary matched nothing. -/
def selectedOffers (html : Html) : List Container :=
  if html.primarySelection.isEmpty then html.secondarySelection else html.primarySelection

/-- The container loop of `parse_search_results` over a given container list. -/
def extractItems (join : String → String → String) (base_url : String)
    (containers : List Container) : List Offer :=
  containers.filterMap (containerToItem join base_url)

/-- `main.parse_search_results`. -/
def parse_search_results (join : String → String → String) (base_url : String)
    (html : Html) : List Offer :=
  extractItems join base_url (selectedOffers html)

/-- The enrichment step of `prepare_and_save_offer` (lines 192-196): attach the
generated cover letter and the locale's CV URL to a copy of the offer. -/
def enrichOffer (env : Env) (offer : Offer) (lang : String) : Offer :=
  { offer with
    cover_letter := some (generate_cover_letter_basic env offer lang)
    cv_url := if lang == "fr" then env.cvFrUrl else env.cvEsUrl }

/-- Outcome of `prepare_and_save_offer`: the Notion store, the local fallback
file `data/results.json`, and `data/last_prepared_offer.json`. -/
structure PrepareResult where
  store : List Page
  fallbackFile : FileState Offer
  lastPrepared : Option (List Offer)
deriving Repr, DecidableEq

/-- `main.prepare_and_save_offer`: enrich the offer, try the Notion upsert,
catch any exception from it by appending the enriched offer to the local
fallback file, then overwrite `data/last_prepared_offer.json`. -/
def prepare_and_save_offer (env : Env) (store : List Page) (fallbackFile : FileState Offer)
    (offer : Offer) (lang : String) : PrepareResult :=
  let offer_copy := enrichOffer env offer lang
  match upsert_offer_to_notion env.notion store offer_copy with
  | .ok (_, store') =>
    { store := store', fallbackFile := fallbackFile, lastPrepared := some [offer_copy] }
  | .error _ =>
    { store := store, fallbackFile := append_json offer_copy fallbackFile,
      lastPrepared := some [offer_copy] }

/-- `main.BASE_DOMAIN`. -/
def BASE_DOMAIN : String := "https://www.hellowork.com"

/-- `main.SEARCH_PATH`. -/
def SEARCH_PATH : String := "/fr-fr/recherche-emploi/"

/-- Mutable state threaded through one `run`: the Notion store, the two local
JSON files, `offers_collected`, the number of page fetches issued, and the
final `data/all_offers.json` backup. -/
structure RunState where
  store : List Page := []
  fallbackFile : FileState Offer := .missing
  lastPrepared : Option (List Offer) := none
  collected : List Offer := []
  fetches : Nat := 0
  allOffersBackup : Option (List Offer) := none
deriving Repr, DecidableEq

/-- The ATS token held by `run` (lines 221-225): obtained only when both
credentials are present and `DRY_RUN` is false. -/
def runToken (env : Env) : Option String :=
  if env.hwCreds && !env.dryRun then env.authToken else none

/-- The per-offer body of `run`'s inner loop (lines 233-255): skip offers with
no truthy link; otherwise generate the letter, submit via ATS or prepare, and
append the original offer to `offers_collected`. -/
def processOffer (env : Env) (lang : String) (st : RunState) (o : Offer) : RunState :=
  if !pyTruthy o.link then st
  else
    let _cover := generate_cover_letter_basic env o lang
    let st' :=
      if (runToken env).isSome && !env.dryRun then
        if env.atsSubmitOk then st
        else
          let pr := prepare_and_save_offer env st.store st.fallbackFile o lang
          { st with store := pr.store, fallbackFile := pr.fallbackFile,
                    lastPrepared := pr.lastPrepared }
      else
        let pr := prepare_and_save_offer env st.store st.fallbackFile o lang
        { st with store := pr.store, fallbackFile := pr.fallbackFile,
                  lastPrepared := pr.lastPrepared }
    { st' with collected := st'.collected ++ [o] }

/-- The per-page body of `run`'s outer loop (lines 227-259): issue the page
fetch, skip the page when it fails, else parse and process each offer. -/
def runPage (env : Env) (lang : String) (st : RunState) (p : Nat) : RunState :=
  let st1 := { st with fetches := st.fetches + 1 }
  match env.fetchPage p with
  | none => st1
  | some html =>
    (parse_search_results env.urljoin BASE_DOMAIN html).foldl (processOffer env lang) st1

/-- `main.run`: gate on robots.txt (a disallow returns Python `None` at once),
loop over pages 1..pages, then write `offers_collected` to
`data/all_offers.json` and return it. -/
def run (env : Env) (pages : Nat) (lang_pref : String) : Option (List Offer) × RunState :=
  if !check_robots_allowed env.robotsFetch env.userAgent SEARCH_PATH then
    (none, {})
  else
    let final := (List.range pages).foldl (fun st i => runPage env lang_pref st (i + 1)) {}
    let final' := { final with allOffersBackup := some final.collected }
    (some final'.collected, final')

/-! ### Concrete sample data for witnesses and counterexamples -/

/-- A concrete scraped offer with all fields resolved. -/
def sampleOffer : Offer :=
  { title := some "Testeur logiciel", company := some "ACME",
    location := some "Paris", date := some "2025-09-15",
    link := some "https://www.hellowork.com/fr-fr/emplois/1.html",
    source := some "hellowork" }

/-- A concrete offer with no field at all (no link, no title). -/
def blankOffer : Offer := {}

/-- An environment whose robots.txt fetch raises. -/
def envRobotsDown : Env := { robotsFetch := .error "timeout" }

/-- An environment whose robots.txt disallows every path. -/
def envRobotsDisallow : Env := { robotsFetch := .ok ⟨fun _ _ => false⟩ }

/-- An environment whose Notion query call raises. -/
def envQueryDown : Env := { notion := { queryFailure := some "ConnectionError" } }

/-- An environment with a failing language-model call and both CV URLs set. -/
def envLlmFails : Env :=
  { llm := .fails "timeout", cvFrUrl := some "https://cv.example/fr.pdf",
    cvEsUrl := some "https://cv.example/es.pdf" }

/-! ### Shared helper lemmas -/

/-- A run whose robots.txt verdict is a disallow returns Python `None` at once,
with the initial (all-empty, zero-fetch) run state. -/
theorem run_aborted_of_disallowed (env : Env) (pages : Nat) (lang : String)
    (h : check_robots_allowed env.robotsFetch env.userAgent SEARCH_PATH = false) :
    run env pages lang = (none, {}) := by
  simp [run, h]

/-! ### Claims -/

/-- C6: `append_json` leaves the file holding exactly the previously stored
array with the new record appended at the end; a missing or unparseable file
is read as the empty array, so appending to such a file yields exactly the
one-element array. -/
theorem C6_append_json_appends (item : Offer) (fs : FileState Offer) :
    append_json item fs = FileState.stored (readExistingArray fs ++ [item]) ∧
    (fs = FileState.missing ∨ fs = FileState.corrupt →
      append_json item fs = FileState.stored [item]) := by
  refine ⟨rfl, ?_⟩
  rintro (rfl | rfl) <;> rfl

/-- C6 witness: appending a concrete offer to a missing file yields exactly
the singleton array. -/
theorem C6_append_json_appends_witness :
    append_json sampleOffer (FileState.missing : FileState Offer) =
      FileState.stored [sampleOffer] :=
  (C6_append_json_appends sampleOffer FileState.missing).2 (Or.inl rfl)

/-- C7: enrichment attaches the configured `CV_FR_URL` for locale `"fr"` and
`CV_ES_URL` for locale `"es"`, for every offer and configuration, and the
fallback cover-letter template is a pure deterministic function: evaluating it
twice on the same offer and locale yields the identical string. -/
theorem C7_enrich_resume_urls (env : Env) (offer : Offer) :
    (enrichOffer env offer "fr").cv_url = env.cvFrUrl ∧
    (enrichOffer env offer "es").cv_url = env.cvEsUrl ∧
    ∀ lang : String,
      fallbackCoverLetter env offer lang = fallbackCoverLetter env offer lang :=
  ⟨rfl, rfl, fun _ => rfl⟩

/-- C10: the robots.txt gate is fail-closed: when retrieving/parsing robots.txt
raises, `check_robots_allowed` returns `false`, and a run whose robots fetch
raises aborts at once: no page fetch, no result list. -/
theorem C10_robots_fail_closed (e ua path : String) (env : Env) (pages : Nat)
    (lang : String) (h : env.robotsFetch = Except.error e) :
    check_robots_allowed (Except.error e) ua path = false ∧
    run env pages lang = (none, {}) := by
  refine ⟨rfl, ?_⟩
  exact run_aborted_of_disallowed env pages lang (by rw [h]; rfl)

/-- C10 witness: a concrete environment whose robots fetch times out. -/
theorem C10_robots_fail_closed_witness :
    check_robots_allowed (Except.error "timeout") "ua" "/" = false ∧
    run envRobotsDown 2 "fr" = (none, {}) :=
  C10_robots_fail_closed "timeout" "ua" "/" envRobotsDown 2 "fr" rfl

/-- C5 counterexample: with robots.txt disallowing the search path, `run`
returns Python `None` (modelled `none`), which is not an empty result list
(`some []`); it does issue zero fetches. -/
theorem C5_counterexample :
    (run envRobotsDisallow 3 "fr").1 = none ∧
    (run envRobotsDisallow 3 "fr").1 ≠ some ([] : List Offer) ∧
    (run envRobotsDisallow 3 "fr").2.fetches = 0 := by
  refine ⟨rfl, ?_, rfl⟩
  intro h
  exact Option.noConfusion ((rfl : (run envRobotsDisallow 3 "fr").1 = none) ▸ h)

/-- C5 (amended): when the robots.txt check disallows the search path, `run`
ends immediately with the initial state — zero pages processed, zero page
fetches, no backup written — and returns Python `None` (no offer list) rather
than an empty list. -/
theorem C5_run_robots_gate (env : Env) (pages : Nat) (lang : String)
    (h : check_robots_allowed env.robotsFetch env.userAgent SEARCH_PATH = false) :
    run env pages lang = (none, {}) :=
  run_aborted_of_disallowed env pages lang h

/-- C5 witness: the amended gate at a concrete disallowing environment. -/
theorem C5_run_robots_gate_witness :
    run envRobotsDisallow 3 "fr" = (none, {}) :=
  C5_run_robots_gate envRobotsDisallow 3 "fr" rfl

/-- C2 counterexample: with the Notion query call raising, reconciliation
propagates the exception (the `Except.error` value) to its caller — it does
not return a result dict with status `"error"`. -/
theorem C2_counterexample :
    upsert_offer_to_notion { queryFailure := some "ConnectionError" } [] sampleOffer =
      Except.error "ConnectionError" := by
  rfl

/-- C2 (amended): on any transport or store-side failure during the query or
create step, `upsert_offer_to_notion` raises to its caller; the caller
`prepare_and_save_offer` catches the exception, leaves the remote store
unchanged, and appends the enriched offer to the local fallback file, itself
returning normally. -/
theorem C2_prepare_catches_upsert_failure (env : Env) (store : List Page)
    (fb : FileState Offer) (offer : Offer) (lang e : String)
    (h : upsert_offer_to_notion env.notion store (enrichOffer env offer lang) =
      Except.error e) :
    prepare_and_save_offer env store fb offer lang =
      { store := store,
        fallbackFile := append_json (enrichOffer env offer lang) fb,
        lastPrepared := some [enrichOffer env offer lang] } := by
  simp [prepare_and_save_offer, h]

/-- C2 witness: the amended behaviour at a concrete failing environment. -/
theorem C2_prepare_catches_upsert_failure_witness :
    prepare_and_save_offer envQueryDown [] FileState.missing sampleOffer "fr" =
      { store := [],
        fallbackFile := append_json (enrichOffer envQueryDown sampleOffer "fr")
          FileState.missing,
        lastPrepared := some [enrichOffer envQueryDown sampleOffer "fr"] } :=
  C2_prepare_catches_upsert_failure envQueryDown [] FileState.missing sampleOffer "fr"
    "ConnectionError" rfl

/-- C3 counterexample: an offer with neither link nor title is not rejected as
an invalid record: against an empty store with a working create call,
`upsert_offer_to_notion` does create a remote page — titled `"Sans titre"` —
and returns status `"created"`. -/
theorem C3_counterexample :
    upsert_offer_to_notion {} [] blankOffer =
      Except.ok
        ({ status := "created", notion_result := build_properties_from_offer blankOffer },
         [build_properties_from_offer blankOffer]) ∧
    (build_properties_from_offer blankOffer).Title = "Sans titre" :=
  ⟨rfl, rfl⟩

/-- C3 (amended): for an offer with neither a truthy link nor a truthy title,
the query step issues no remote request and returns the empty list (even when
the query transport would fail); reconciliation then creates a new remote
page whose title defaults to `"Sans titre"` and returns status `"created"`
when the create call succeeds. -/
theorem C3_no_identity_still_creates (env : NotionEnv) (store : List Page) (offer : Offer)
    (hl : pyTruthy offer.link = false) (ht : pyTruthy offer.title = false)
    (hc : env.createFailure = none) :
    query_database_by_link_or_title env store offer.link offer.title = Except.ok [] ∧
    upsert_offer_to_notion env store offer =
      Except.ok
        ({ status := "created", notion_result := build_properties_from_offer offer },
         store ++ [build_properties_from_offer offer]) ∧
    (build_properties_from_offer offer).Title = "Sans titre" := by
  have hquery : query_database_by_link_or_title env store offer.link offer.title =
      Except.ok [] := by
    simp [query_database_by_link_or_title, hl, ht]
  refine ⟨hquery, ?_, ?_⟩
  · simp [upsert_offer_to_notion, hquery, create_page, hc]
  · match hx : offer.title with
    | none => simp [build_properties_from_offer, pyOr, hx]
    | some s =>
      rw [hx] at ht
      simp only [pyTruthy, bne_eq_false_iff_eq] at ht
      simp [build_properties_from_offer, pyOr, hx, ht]

/-- C3 witness: the amended behaviour at a concrete blank offer, with a query
transport that would fail (showing no query is issued). -/
theorem C3_no_identity_still_creates_witness :
    query_database_by_link_or_title { queryFailure := some "down" } [] blankOffer.link
      blankOffer.title = Except.ok [] ∧
    upsert_offer_to_notion { queryFailure := some "down" } [] blankOffer =
      Except.ok
        ({ status := "created", notion_result := build_properties_from_offer blankOffer },
         [] ++ [build_properties_from_offer blankOffer]) ∧
    (build_properties_from_offer blankOffer).Title = "Sans titre" :=
  C3_no_identity_still_creates { queryFailure := some "down" } [] blankOffer rfl rfl rfl

/-- A container whose title anchor resolves but carries no `href`. -/
def containerNoLink : Container := { titleTag := some { text := "Dev Python" } }

/-- An environment whose robots.txt allows everything and whose every page
fetch yields one container with a title but no link. -/
def envNoLinkRun : Env :=
  { robotsFetch := .ok ⟨fun _ _ => true⟩,
    fetchPage := fun _ => some { primarySelection := [containerNoLink] } }

/-- C9 counterexample: a scraped offer with a title but no link is extracted,
yet `run` skips it entirely: the final batch backup is the empty array (the
offer is not retained), the Notion store is untouched, and no degraded
title-based reconciliation happens. -/
theorem C9_counterexample :
    parse_search_results envNoLinkRun.urljoin BASE_DOMAIN
        { primarySelection := [containerNoLink] } =
      [{ title := some "Dev Python", source := some "hellowork" }] ∧
    run envNoLinkRun 1 "fr" =
      (some [], { fetches := 1, allOffersBackup := some [] }) := by
  exact ⟨rfl, rfl⟩

/-- C9 (amended): `run` drops offers lacking a truthy link entirely: the
per-offer loop body leaves the run state unchanged — no remote reconciliation
attempt (store unchanged), no local fallback write, and no entry added to
`offers_collected`, hence none in the final batch backup. -/
theorem C9_no_link_skipped (env : Env) (lang : String) (st : RunState) (o : Offer)
    (h : pyTruthy o.link = false) :
    processOffer env lang st o = st := by
  simp [processOffer, h]

/-- C9 witness: the amended behaviour at a concrete linkless offer. -/
theorem C9_no_link_skipped_witness :
    processOffer envNoLinkRun "fr" {}
      { title := some "Dev Python", source := some "hellowork" } = {} :=
  C9_no_link_skipped envNoLinkRun "fr" {}
    { title := some "Dev Python", source := some "hellowork" } rfl

/-- A page built from an offer with a truthy link matches the offer's own
link filter. -/
theorem buildPage_matches_own_link (offer : Offer) (hl : pyTruthy offer.link = true) :
    pageMatchesFilter offer.link offer.title (build_properties_from_offer offer) = true := by
  simp [pageMatchesFilter, build_properties_from_offer, pyOrNone, hl]

/-- C1: for an offer with a truthy link, with both Notion calls working: a
non-empty query result yields status `"exists"` carrying exactly the first
returned match and leaves the store unchanged (no create request); an empty
query result yields exactly one created page and status `"created"`; and a
second reconciliation pass against the resulting store state always yields
`"exists"` — never a second `"created"`. -/
theorem C1_upsert_no_duplicate_create (env : NotionEnv) (store : List Page) (offer : Offer)
    (hq : env.queryFailure = none) (hc : env.createFailure = none)
    (hl : pyTruthy offer.link = true) :
    (∀ p ps, store.filter (pageMatchesFilter offer.link offer.title) = p :: ps →
      upsert_offer_to_notion env store offer =
        Except.ok ({ status := "exists", notion_result := p }, store)) ∧
    (store.filter (pageMatchesFilter offer.link offer.title) = [] →
      upsert_offer_to_notion env store offer =
        Except.ok ({ status := "created",
                     notion_result := build_properties_from_offer offer },
                   store ++ [build_properties_from_offer offer])) ∧
    (∀ r store', upsert_offer_to_notion env store offer = Except.ok (r, store') →
      ∃ p, upsert_offer_to_notion env store' offer =
        Except.ok ({ status := "exists", notion_result := p }, store')) := by
  have hquery : ∀ s : List Page,
      query_database_by_link_or_title env s offer.link offer.title =
        Except.ok (s.filter (pageMatchesFilter offer.link offer.title)) := by
    intro s
    simp [query_database_by_link_or_title, hl, hq]
  refine ⟨?_, ?_, ?_⟩
  · intro p ps hfil
    simp [upsert_offer_to_notion, hquery store, hfil]
  · intro hfil
    simp [upsert_offer_to_notion, hquery store, hfil, create_page, hc]
  · intro r store' h
    cases hfil : store.filter (pageMatchesFilter offer.link offer.title) with
    | cons p ps =>
      have heq : upsert_offer_to_notion env store offer =
          Except.ok ({ status := "exists", notion_result := p }, store) := by
        simp [upsert_offer_to_notion, hquery store, hfil]
      rw [heq] at h
      injection h with h12
      injection h12 with _ hstore
      subst hstore
      exact ⟨p, heq⟩
    | nil =>
      have heq : upsert_offer_to_notion env store offer =
          Except.ok ({ status := "created",
                       notion_result := build_properties_from_offer offer },
                     store ++ [build_properties_from_offer offer]) := by
        simp [upsert_offer_to_notion, hquery store, hfil, create_page, hc]
      rw [heq] at h
      injection h with h12
      injection h12 with _ hstore
      subst hstore
      have hfil2 : (store ++ [build_properties_from_offer offer]).filter
          (pageMatchesFilter offer.link offer.title) =
            [build_properties_from_offer offer] := by
        rw [List.filter_append, hfil, List.nil_append]
        simp [List.filter, buildPage_matches_own_link offer hl]
      refine ⟨build_properties_from_offer offer, ?_⟩
      simp [upsert_offer_to_notion, hquery _, hfil2]

/-- C1 witness: against an empty store, a concrete linked offer is created
(exactly one page appended). -/
theorem C1_upsert_no_duplicate_create_witness :
    upsert_offer_to_notion {} [] sampleOffer =
      Except.ok ({ status := "created",
                   notion_result := build_properties_from_offer sampleOffer },
                 [] ++ [build_properties_from_offer sampleOffer]) :=
  (C1_upsert_no_duplicate_create {} [] sampleOffer rfl rfl rfl).2.1 rfl

/-- Does the container resolve no title (no matching tag, or empty stripped
text)? -/
def titleUnresolvable (c : Container) : Bool :=
  !pyTruthy (c.titleTag.map Tag.text)

/-- A container without a resolvable title yields no item. -/
theorem containerToItem_eq_none (join : String → String → String) (base_url : String)
    (c : Container) (h : titleUnresolvable c = true) :
    containerToItem join base_url c = none := by
  simp only [titleUnresolvable, Bool.not_eq_true'] at h
  simp [containerToItem, h]

/-- C4: every offer emitted by `parse_search_results` has a truthy (non-empty)
title, and a container with no resolvable title contributes nothing to the
output sequence: deleting it from the container list leaves the extracted
items unchanged. -/
theorem C4_extracted_titles_nonempty (join : String → String → String)
    (base_url : String) :
    (∀ html o, o ∈ parse_search_results join base_url html →
      pyTruthy o.title = true) ∧
    (∀ cs1 cs2 c, titleUnresolvable c = true →
      extractItems join base_url (cs1 ++ c :: cs2) =
        extractItems join base_url (cs1 ++ cs2)) := by
  constructor
  · intro html o ho
    simp only [parse_search_results, extractItems, List.mem_filterMap] at ho
    obtain ⟨c, _, hc⟩ := ho
    by_cases hT : pyTruthy (c.titleTag.map Tag.text) = true
    · simp only [containerToItem, hT, if_true, Option.some.injEq] at hc
      rw [← hc]
      exact hT
    · simp only [containerToItem, hT, if_false, Bool.false_eq_true] at hc
      exact Option.noConfusion hc
  · intro cs1 cs2 c h
    simp [extractItems, List.filterMap_append, List.filterMap_cons,
      containerToItem_eq_none join base_url c h]

/-- A join function modelling `urljoin` on a relative path: plain
concatenation of the base origin and the path. -/
def joinConcat : String → String → String := fun b h => b ++ h

/-- A container resolving a full title anchor with an href. -/
def containerGood : Container :=
  { titleTag := some { text := "Testeur logiciel", href := some "/fr-fr/emplois/1.html" },
    companyTag := some { text := "ACME" } }

/-- A container whose title selector matched nothing. -/
def containerNoTitle : Container := { companyTag := some { text := "Ghost" } }

/-- A page of markup with one good container and one title-less container. -/
def sampleHtml : Html := { primarySelection := [containerGood, containerNoTitle] }

/-- The offer extracted from `containerGood`. -/
def extractedOffer : Offer :=
  { title := some "Testeur logiciel", company := some "ACME",
    link := some (BASE_DOMAIN ++ "/fr-fr/emplois/1.html"), source := some "hellowork" }

/-- C4 witness: on the concrete page, the emitted offer has a truthy title and
the title-less container contributes nothing. -/
theorem C4_extracted_titles_nonempty_witness :
    pyTruthy extractedOffer.title = true ∧
    extractItems joinConcat BASE_DOMAIN ([containerGood] ++ containerNoTitle :: []) =
      extractItems joinConcat BASE_DOMAIN ([containerGood] ++ []) :=
  ⟨(C4_extracted_titles_nonempty joinConcat BASE_DOMAIN).1 sampleHtml extractedOffer
      (by decide),
   (C4_extracted_titles_nonempty joinConcat BASE_DOMAIN).2 [containerGood] []
      containerNoTitle rfl⟩

/-- The string `x` occurs contiguously inside `s`, with explicit context. -/
def strContainsStr (s x : String) : Prop := ∃ a b, s = a ++ x ++ b

/-- Containment from an explicit decomposition. -/
theorem strContainsStr_of_eq (s a x b : String) (h : s = a ++ x ++ b) :
    strContainsStr s x := ⟨a, b, h⟩

/-- A three-part append whose leftmost part is non-empty is non-empty. -/
theorem append3_ne_empty (a x b : String) (ha : a.data ≠ []) : a ++ x ++ b ≠ "" := by
  intro h
  have hd : (a ++ x ++ b).data = [] := congrArg String.data h
  rw [String.data_append, String.data_append] at hd
  exact ha (List.append_eq_nil.mp (List.append_eq_nil.mp hd).1).1

/-- C8: when the configured language-model call fails, the failure is caught
inside `generate_cover_letter_basic`, which returns the deterministic fallback
letter — a non-empty string containing the offer's job title and company name
verbatim. -/
theorem C8_llm_failure_fallback (env : Env) (offer : Offer) (lang msg t c : String)
    (hllm : env.llm = LlmBehavior.fails msg)
    (ht : offer.title = some t) (hc : offer.company = some c) :
    generate_cover_letter_basic env offer lang = fallbackCoverLetter env offer lang ∧
    generate_cover_letter_basic env offer lang ≠ "" ∧
    strContainsStr (generate_cover_letter_basic env offer lang) t ∧
    strContainsStr (generate_cover_letter_basic env offer lang) c := by
  have hgen : generate_cover_letter_basic env offer lang =
      fallbackCoverLetter env offer lang := by
    simp [generate_cover_letter_basic, hllm]
  have hshape1 : generate_cover_letter_basic env offer lang =
      "Bonjour,\n\nJe vous propose ma candidature pour le poste de " ++ t ++
      (" au sein de " ++ pyStr offer.company ++
       (". Vous trouverez mon CV en pièce jointe (" ++
        pyStr (if lang == "fr" then env.cvFrUrl else env.cvEsUrl) ++
        ").\n\nCordialement,\nYacine Bedhouche")) := by
    rw [hgen]
    simp [fallbackCoverLetter, ht, pyStr, String.append_assoc]
  have hshape2 : generate_cover_letter_basic env offer lang =
      ("Bonjour,\n\nJe vous propose ma candidature pour le poste de " ++
        (t ++ " au sein de ")) ++ c ++
      (". Vous trouverez mon CV en pièce jointe (" ++
       pyStr (if lang == "fr" then env.cvFrUrl else env.cvEsUrl) ++
       ").\n\nCordialement,\nYacine Bedhouche") := by
    rw [hgen]
    simp [fallbackCoverLetter, ht, hc, pyStr, String.append_assoc]
  refine ⟨hgen, ?_, strContainsStr_of_eq _ _ _ _ hshape1,
    strContainsStr_of_eq _ _ _ _ hshape2⟩
  rw [hshape1]
  exact append3_ne_empty _ _ _ (by decide)

/-- C8 witness: the fallback behaviour at a concrete failing provider and
concrete offer. -/
theorem C8_llm_failure_fallback_witness :
    generate_cover_letter_basic envLlmFails sampleOffer "fr" =
      fallbackCoverLetter envLlmFails sampleOffer "fr" ∧
    generate_cover_letter_basic envLlmFails sampleOffer "fr" ≠ "" ∧
    strContainsStr (generate_cover_letter_basic envLlmFails sampleOffer "fr")
      "Testeur logiciel" ∧
    strContainsStr (generate_cover_letter_basic envLlmFails sampleOffer "fr") "ACME" :=
  C8_llm_failure_fallback envLlmFails sampleOffer "fr" "timeout" "Testeur logiciel"
    "ACME" rfl rfl rfl
